import Mathlib

/-!
Verification of the request-translation core of the `gemini-proxy` repository.

The definitions below are a shallow embedding of the newest build of the proxy,
`dist/index.mjs` (the TypeScript source `src/index.ts` is an earlier state of the
same file that lacks the data-URI branch of the image handler; where the two
differ, `dist/index.mjs` is the version embedded, and each definition cites the
lines it translates).  JavaScript strings are modelled as Lean `String`s and the
handful of platform string operations the code uses (`startsWith`, `split`,
`substring`, `includes`, `URLSearchParams`) are implemented here by structural
recursion over the character list so that every definition evaluates inside the
kernel.  Network I/O (`fetch`) is modelled by an explicit oracle argument
mapping a URL to its outcome.
-/

/-- Boolean prefix test on character lists; `isPrefixCharList p s` holds when
`p` is an initial segment of `s`. -/
def isPrefixCharList : List Char → List Char → Bool
  | [], _ => true
  | _ :: _, [] => false
  | p :: ps, c :: cs => p == c && isPrefixCharList ps cs

/-- Model of JavaScript `s.startsWith(p)` for the strings used by the proxy
(all are free of astral code points, so code-point indexing agrees with
JavaScript's UTF-16 indexing). -/
def jsStartsWith (s p : String) : Bool :=
  isPrefixCharList p.data s.data

/-- Model of JavaScript `s.substring(n)` for the proxy's use (dropping the
ASCII prefix `"Bearer "`), as dropping `n` characters. -/
def jsSubstring (s : String) (n : Nat) : String :=
  ⟨s.data.drop n⟩

/-- Locates the leftmost occurrence of the non-empty separator `sep` in a
character list, returning the characters before it and the characters after
it.  Returns `none` when `sep` does not occur (and also when `sep` is empty,
a case the proxy never exercises). -/
def findSplit (sep : List Char) : List Char → Option (List Char × List Char)
  | [] => none
  | c :: rest =>
    if !sep.isEmpty && isPrefixCharList sep (c :: rest) then
      some ([], (c :: rest).drop sep.length)
    else
      match findSplit sep rest with
      | some (pre, post) => some (c :: pre, post)
      | none => none

/-- Fueled worker for `jsSplit`.  Each recursive step consumes at least one
character of the list being split (the separator is non-empty), so fuel equal
to the length of the list plus one always suffices and the fuel-exhaustion
branch is never reached at the fuel `jsSplit` supplies. -/
def splitOnFuel (sep : List Char) : Nat → List Char → List (List Char)
  | 0, s => [s]
  | fuel + 1, s =>
    match findSplit sep s with
    | none => [s]
    | some (pre, post) => pre :: splitOnFuel sep fuel post

/-- Model of JavaScript `s.split(sep)` for a non-empty separator: the maximal
list of chunks obtained by removing the leftmost occurrences of `sep` in
turn. -/
def jsSplit (s sep : String) : List String :=
  (splitOnFuel sep.data (s.data.length + 1) s.data).map (fun l => ⟨l⟩)

/-- Model of JavaScript `s.includes(pat)` for a non-empty pattern (every
pattern the proxy tests is non-empty). -/
def containsSubstr (s pat : String) : Bool :=
  (findSplit pat.data s.data).isSome

/-- Value of an ASCII hexadecimal digit, used by the percent-decoding of
`URLSearchParams`. -/
def hexDigitVal (c : Char) : Option Nat :=
  if '0' ≤ c ∧ c ≤ '9' then some (c.toNat - '0'.toNat)
  else if 'a' ≤ c ∧ c ≤ 'f' then some (c.toNat - 'a'.toNat + 10)
  else if 'A' ≤ c ∧ c ≤ 'F' then some (c.toNat - 'A'.toNat + 10)
  else none

/-- Decoding of one `application/x-www-form-urlencoded` component as
`URLSearchParams` performs it: `+` becomes a space and a `%XY` escape with two
hexadecimal digits becomes the character with code `0xXY`.  (Multi-byte UTF-8
escape sequences are decoded byte-by-byte to code points below `0x100`; the
claims checked in this development involve no percent-escapes at all.) -/
def formDecode : List Char → List Char
  | [] => []
  | '+' :: rest => ' ' :: formDecode rest
  | '%' :: a :: b :: rest =>
    match hexDigitVal a, hexDigitVal b with
    | some hi, some lo => Char.ofNat (16 * hi + lo) :: formDecode rest
    | _, _ => '%' :: formDecode (a :: b :: rest)
  | c :: rest => c :: formDecode rest

/-- Splits one `name=value` segment of a query string at its first `=`,
decoding both sides; a segment without `=` is a name with empty value. -/
def parsePair (seg : List Char) : String × String :=
  let name := seg.takeWhile (fun c => c != '=')
  let rest := seg.dropWhile (fun c => c != '=')
  match rest with
  | _ :: v => (⟨formDecode name⟩, ⟨formDecode v⟩)
  | [] => (⟨formDecode name⟩, "")

/-- Model of `new URLSearchParams(init).get(name)`: strip one leading `?`,
split on `&`, drop empty segments, decode each pair, and return the value of
the first pair whose decoded name matches, or `none`. -/
def searchParamsGet (init : String) (name : String) : Option String :=
  let raw := if jsStartsWith init "?" then init.data.drop 1 else init.data
  let segs := (splitOnFuel ['&'] (raw.length + 1) raw).filter (fun seg => !seg.isEmpty)
  ((segs.map parsePair).find? (fun p => p.1 == name)).map (fun p => p.2)

/-- Standard base64 alphabet, as used by Node's `Buffer.toString('base64')`. -/
def b64Chars : List Char :=
  ("ABCDEFGHIJKLMNOPQRSTUVWXYZabcdefghijklmnopqrstuvwxyz0123456789+/").data

/-- Character of the base64 alphabet at index `n` (< 64 in every use). -/
def b64c (n : Nat) : Char :=
  b64Chars.getD n 'A'

/-- Base64 encoding (with padding) of a byte sequence, each byte given as a
natural number below 256, exactly as `Buffer.from(bytes).toString('base64')`
produces it. -/
def base64Encode : List Nat → List Char
  | [] => []
  | [a] => [b64c (a / 4), b64c (a % 4 * 16), '=', '=']
  | [a, b] => [b64c (a / 4), b64c (a % 4 * 16 + b / 16), b64c (b % 16 * 4), '=']
  | a :: b :: c :: rest =>
    b64c (a / 4) :: b64c (a % 4 * 16 + b / 16) :: b64c (b % 16 * 4 + c / 64) ::
      b64c (c % 64) :: base64Encode rest

/-- Base64 encoding of a byte sequence, packaged as a string. -/
def base64String (bytes : List Nat) : String :=
  ⟨base64Encode bytes⟩

/-- Backend (Gemini) content role; `dist/index.mjs` lines 165-169 produce only
these two values. -/
inductive GRole
  | user
  | model

/-- Backend content part (`GeminiPart` in the source): the conversion only ever
pushes a `{text}` part or an `{inlineData: {mimeType, data}}` part. -/
inductive GeminiPart
  | text (s : String)
  | inlineData (mimeType : String) (data : String)

/-- Backend content entry (`GeminiContent` in the source): a role and an
ordered part list. -/
structure GeminiContent where
  role : GRole
  parts : List GeminiPart

/-- One element of an array-valued OpenAI message content.  `type` is the
item's `type` field when it is a string; `text` is its `text` field when that
is a string; `image_url` is `item.image_url.url` when `item.image_url` is a
truthy object carrying a string `url`. -/
structure ContentItem where
  type : Option String := none
  text : Option String := none
  image_url : Option String := none

/-- Content of an OpenAI message: a plain string, an array of items, or any
other JavaScript value (`other`), which the converter skips. -/
inductive MessageContent
  | str (s : String)
  | arr (items : List ContentItem)
  | other

/-- OpenAI chat message as the converter reads it: a role string and content. -/
structure OpenAIMessage where
  role : String
  content : MessageContent

/-- Result of a successful `fetch`: HTTP status, status text, the value of the
`content-type` header if present, and the body bytes. -/
structure FetchResponse where
  status : Nat
  statusText : String
  contentType : Option String
  body : List Nat

/-- Outcome of a `fetch` call: a response, or a rejected promise carrying an
error message. -/
inductive FetchResult
  | success (r : FetchResponse)
  | failure (message : String)

/-- Network oracle: what `fetch` returns for each URL during one request. -/
def FetchOracle : Type :=
  String → FetchResult

/-- Model of node-fetch's `response.ok`: status in the range 200-299. -/
def responseOk (r : FetchResponse) : Bool :=
  decide (200 ≤ r.status) && decide (r.status < 300)

/-- Result of `convertOpenAIMessagesToGeminiContents`: the translated contents
and the batch-wide image-processed flag (`dist/index.mjs` lines 163, 234). -/
structure ConversionResult where
  contents : List GeminiContent
  imageProcessed : Bool

/-- Role mapping of `dist/index.mjs` lines 165-169: `assistant` becomes
`model`, `system` becomes `user`, everything else keeps the default `user`. -/
def mapRole (role : String) : GRole :=
  if role == "assistant" then GRole.model
  else if role == "system" then GRole.user
  else GRole.user

/-- Parts contributed by one array item (`dist/index.mjs` lines 213-220): a
`text` item with a string `text` gives a text part; an `image_url` item with a
string url gives a text part quoting the URL; anything else contributes
nothing. -/
def itemParts (it : ContentItem) : List GeminiPart :=
  if it.type == some "text" then
    match it.text with
    | some t => [GeminiPart.text t]
    | none => []
  else if it.type == some "image_url" then
    match it.image_url with
    | some u => [GeminiPart.text ("Image URL: " ++ u)]
    | none => []
  else []

/-- Character class of JavaScript's `.` without the `s` flag: any character
except the four line terminators. -/
def isJsDot (c : Char) : Bool :=
  c != '\n' && c != '\r' && c != Char.ofNat 0x2028 && c != Char.ofNat 0x2029

/-- Model of `imageSource.match(/^data:([^;]+);base64,(.+)$/)` from
`dist/index.mjs` line 181: the string must be `data:` followed by a non-empty
mime type (the characters up to the first `;`, which `[^;]+` matches), the
literal `;base64,`, and a non-empty payload containing no line terminator.
Returns the two capture groups on success. -/
def dataUriMatch (s : String) : Option (String × String) :=
  if jsStartsWith s "data:" then
    let rest := s.data.drop 5
    let mime := rest.takeWhile (fun c => c != ';')
    let tail := rest.dropWhile (fun c => c != ';')
    if mime.isEmpty then none
    else if isPrefixCharList (";base64,").data tail then
      let dat := tail.drop 8
      if !dat.isEmpty && dat.all isJsDot then some (⟨mime⟩, ⟨dat⟩) else none
    else none
  else none

/-- Image-instruction processing of `dist/index.mjs` lines 178-206, applied
once the content split into exactly three segments.  A source starting with
`data:image/` is parsed locally (no fetch): a regex match yields the text part
followed by the inline-data part and sets the per-message image flag, and a
failed match throws, which the enclosing catch turns into `null` (message
dropped).  Any other source is fetched: a rejected fetch or a non-2xx status
likewise ends in the catch and drops the message; on success the mime type is
the `content-type` header or `application/octet-stream`, the body is base64
encoded, and the same two parts are produced with the flag set. -/
def imageInstructionResult (oracle : FetchOracle) (role : GRole)
    (imageSource textContent : String) : Option GeminiContent × Bool :=
  if jsStartsWith imageSource "data:image/" then
    match dataUriMatch imageSource with
    | some (mimeType, dat) =>
      (some ⟨role, [GeminiPart.text textContent, GeminiPart.inlineData mimeType dat]⟩, true)
    | none => (none, false)
  else
    match oracle imageSource with
    | FetchResult.failure _ => (none, false)
    | FetchResult.success r =>
      if responseOk r then
        let mimeType := r.contentType.getD "application/octet-stream"
        (some ⟨role, [GeminiPart.text textContent,
          GeminiPart.inlineData mimeType (base64String r.body)]⟩, true)
      else (none, false)

/-- Conversion of a single message, `dist/index.mjs` lines 164-231.  The
source accumulates parts in a mutable array and ends with a single
`parts.length > 0` check; here each branch returns its parts directly, and the
length check is inlined per branch (the two image-success branches always
carry exactly two parts, a plain string always carries one, so only the array
and unsupported branches can come up empty).  The second component is this
message's contribution to the batch-wide image-processed flag. -/
def convertMessage (oracle : FetchOracle) (message : OpenAIMessage) :
    Option GeminiContent × Bool :=
  let role := mapRole message.role
  match message.content with
  | MessageContent.str c =>
    if jsStartsWith c "#image#split#" then
      let partsRaw := jsSplit c "#split#"
      if partsRaw.length = 3 then
        imageInstructionResult oracle role (partsRaw.getD 1 "") (partsRaw.getD 2 "")
      else
        (some ⟨role, [GeminiPart.text c]⟩, false)
    else
      (some ⟨role, [GeminiPart.text c]⟩, false)
  | MessageContent.arr items =>
    let parts := items.foldl (fun acc it => acc ++ itemParts it) []
    if 0 < parts.length then (some ⟨role, parts⟩, false) else (none, false)
  | MessageContent.other => (none, false)

/-- Whole-batch conversion, `dist/index.mjs` lines 162-235: convert every
message (the per-message promises never reject, every failure is caught and
returns `null`), keep the non-null results in order, and report whether any
message set the image flag (the source's single mutated boolean is the
disjunction of the per-message contributions). -/
def convertOpenAIMessagesToGeminiContents (oracle : FetchOracle)
    (messages : List OpenAIMessage) : ConversionResult :=
  let results := messages.map (convertMessage oracle)
  { contents := (results.map Prod.fst).filterMap id
    imageProcessed := results.any Prod.snd }

/-- JSON value as `JSON.parse` produces it, used for the `model` and
`gemini_generation_config` fields of the OpenAI-path request body.  Numbers
are modelled as integers: only their truthiness is ever inspected here. -/
inductive Json
  | null
  | bool (b : Bool)
  | num (n : Int)
  | str (s : String)
  | arr (elems : List Json)
  | obj (fields : List (String × Json))

/-- JavaScript truthiness of a parsed JSON value (`undefined` is represented
by `Option.none` at the use sites). -/
def jsTruthy : Json → Bool
  | Json.null => false
  | Json.bool b => b
  | Json.num n => n != 0
  | Json.str s => s != ""
  | Json.arr _ => true
  | Json.obj _ => true

/-- Truthiness of a possibly-absent field: an absent field (`undefined`) is
falsy. -/
def jsTruthyOpt : Option Json → Bool
  | none => false
  | some j => jsTruthy j

/-- Default generation configuration added when an image was processed,
`dist/index.mjs` line 62. -/
def defaultGenerationConfig : Json :=
  Json.obj [("responseModalities", Json.arr [Json.str "TEXT", Json.str "IMAGE"])]

/-- Fields the OpenAI path reads from the parsed request body:
`bodyJSON.model` (any JSON value, absent when the field is missing),
`bodyJSON.messages` (present exactly when `Array.isArray` holds, already read
into the message schema), and `bodyJSON.gemini_generation_config`. -/
structure RequestBodyJSON where
  model : Option Json := none
  messages : Option (List OpenAIMessage) := none
  gemini_generation_config : Option Json := none

/-- Incoming request as the handler reads it: method, `req.url` (the empty
string models a falsy/absent url), the `Authorization` header, the collected
body string, and the result of `JSON.parse` on that body (`none` models a
parse error), supplied here directly since JSON parsing of arbitrary text is
outside the translated code. -/
structure Request where
  method : String
  url : String
  authorization : Option String
  body : String
  parsedBody : Option RequestBodyJSON

/-- Body forwarded to the backend on the OpenAI path, `dist/index.mjs`
lines 57-68: the translated contents and an optional generation config. -/
structure GeminiRequestBody where
  contents : List GeminiContent
  generationConfig : Option Json

/-- Construction of the forwarded body, `dist/index.mjs` lines 57-67: start
with the contents, add the default generation config when the image flag is
set, then let a truthy `gemini_generation_config` override it. -/
def buildGeminiRequestBody (conv : ConversionResult) (cfg : Option Json) :
    GeminiRequestBody :=
  let requestBody : GeminiRequestBody :=
    { contents := conv.contents
      generationConfig :=
        if conv.imageProcessed then some defaultGenerationConfig else none }
  match cfg with
  | some c =>
    if jsTruthy c then { requestBody with generationConfig := some c } else requestBody
  | none => requestBody

/-- Observable outcome of handling one request.  Error responses record the
HTTP status actually written, plus the `code` and `message` fields of the JSON
error body produced by `sendErr`.  The two forward outcomes abstract the
outgoing `fetch` to the backend (whose response is relayed verbatim and is
outside the translated code), recording the credentials and payload used. -/
inductive Outcome
  | options204
  | errResponse (httpStatus : Nat) (bodyCode : Nat) (bodyMessage : String)
  | forwardOpenAI (apiKey : String) (model : Json) (body : GeminiRequestBody)
  | forwardLegacy (key : String) (body : String)

/-- Model of `sendErr` (`dist/index.mjs` lines 125-141): when the response
head was already written its status stands, otherwise `code` becomes the HTTP
status; the JSON body always carries `code` and `msg`. -/
def sendErr (headSent : Option Nat) (msg : String) (code : Nat) : Outcome :=
  Outcome.errResponse (headSent.getD code) code msg

/-- Error message thrown by `keyFromHeader`, `dist/index.mjs` line 151. -/
def authErrorMsg : String :=
  "💣 Missing or invalid Authorization header! Format: \"Bearer YOUR_API_KEY\""

/-- Query-string of a URL as `keyFromURl` extracts it: `url.split('?')[1]`
with `''` when there is no second chunk. -/
def queryOf (url : String) : String :=
  match jsSplit url "?" with
  | _ :: second :: _ => second
  | _ => ""

/-- Key extraction from the request URL on the legacy path, `dist/index.mjs`
lines 142-148: take the text after the first `?`, look up the `key` search
parameter, and throw when it is absent or empty (both are falsy). -/
def keyFromURl (url : String) : Except String String :=
  match searchParamsGet (queryOf url) "key" with
  | none => Except.error "add param key to url!"
  | some k => if k == "" then Except.error "add param key to url!" else Except.ok k

/-- Key extraction from the `Authorization` header on the OpenAI path,
`dist/index.mjs` lines 149-153: a missing or empty header, or one without the
`Bearer ` prefix, throws; otherwise the key is the text after the prefix. -/
def keyFromHeader (authHeader : Option String) : Except String String :=
  match authHeader with
  | none => Except.error authErrorMsg
  | some h =>
    if h == "" then Except.error authErrorMsg
    else if jsStartsWith h "Bearer " then Except.ok (jsSubstring h 7)
    else Except.error authErrorMsg

/-- Top-level catch block of the handler, `dist/index.mjs` lines 109-123: the
thrown message gains the `💣 ` prefix, the status code is classified by
substring matching (defaulting to 500), and `sendErr` keeps an
already-written head. -/
def catchError (headSent : Option Nat) (errMsg : String) : Outcome :=
  let message := "💣 " ++ errMsg
  let statusCode :=
    if containsSubstr message "API key not valid" || containsSubstr message "API key invalid"
      then 401
    else if containsSubstr message "Invalid JSON" then 400
    else if containsSubstr message "timed out" then 504
    else 500
  sendErr headSent message statusCode

/-- Effective url of a request, `dist/index.mjs` line 15: `req.url || '/'`. -/
def effectiveUrl (req : Request) : String :=
  if req.url == "" then "/" else req.url

/-- Request handler, `dist/index.mjs` lines 6-124.  OPTIONS gets 204; a
recognized path with a non-POST method gets 405; the OpenAI path extracts the
bearer key (a throw lands in the catch block before any head is written),
validates the parsed body, converts the messages (total: per-message failures
are caught inside the conversion), builds the forwarded body, and forwards; an
unrecognized path gets 404; the legacy path writes a 200 head first, then
extracts the query key (a throw now lands in the catch block with the head
already written) and forwards the raw body.  The checks that conversion threw
or returned null contents (`dist/index.mjs` lines 45-54) are unreachable, as
the conversion neither rejects nor returns null contents. -/
def handleRequest (oracle : FetchOracle) (req : Request) : Outcome :=
  if req.method == "OPTIONS" then Outcome.options204
  else
    let url := effectiveUrl req
    let isLegacyPath := jsStartsWith url "/?key=" || url == "/"
    let isOpenAIPath := jsStartsWith url "/v1/chat/completions"
    if req.method != "POST" && (isLegacyPath || isOpenAIPath) then
      sendErr none "💣 Only POST method allowed for this endpoint!" 405
    else if isOpenAIPath then
      match keyFromHeader req.authorization with
      | Except.error e => catchError none e
      | Except.ok apiKey =>
        match req.parsedBody with
        | none => sendErr none "💣 Invalid JSON received in request body!" 400
        | some bodyJSON =>
          if !jsTruthyOpt bodyJSON.model then
            sendErr none "💣 Missing \"model\" field in request body!" 400
          else
            match bodyJSON.messages with
            | none =>
              sendErr none "💣 Missing or invalid \"messages\" array in request body!" 400
            | some messages =>
              let conversionResult := convertOpenAIMessagesToGeminiContents oracle messages
              Outcome.forwardOpenAI apiKey (bodyJSON.model.getD Json.null)
                (buildGeminiRequestBody conversionResult bodyJSON.gemini_generation_config)
    else if !isLegacyPath then
      sendErr none "💣 Unknown path!" 404
    else
      match keyFromURl url with
      | Except.error e => catchError (some 200) e
      | Except.ok key => Outcome.forwardLegacy key req.body

/-- Helper: the image-instruction handler never returns a content with an
empty part list. -/
theorem imageInstructionResult_parts_nonempty (o : FetchOracle) (role : GRole)
    (src txt : String) (c : GeminiContent)
    (h : (imageInstructionResult o role src txt).1 = some c) : c.parts ≠ [] := by
  unfold imageInstructionResult at h
  split at h
  · split at h
    · replace h := Option.some.inj h
      subst h
      simp
    · exact absurd h (by simp)
  · split at h
    · exact absurd h (by simp)
    · split at h
      · replace h := Option.some.inj h
        subst h
        simp
      · exact absurd h (by simp)

/-- Helper: per-message conversion never returns a content with an empty part
list (the source guards every returned content with `parts.length > 0`, and
the image branches always carry two parts). -/
theorem convertMessage_parts_nonempty (o : FetchOracle) (m : OpenAIMessage)
    (c : GeminiContent) (h : (convertMessage o m).1 = some c) : c.parts ≠ [] := by
  obtain ⟨role, content⟩ := m
  cases content with
  | str s =>
    simp only [convertMessage] at h
    split at h
    · split at h
      · exact imageInstructionResult_parts_nonempty o _ _ _ c h
      · replace h := Option.some.inj h
        subst h
        simp
    · replace h := Option.some.inj h
      subst h
      simp
  | arr items =>
    simp only [convertMessage] at h
    split at h
    · rename_i hlen
      replace h := Option.some.inj h
      subst h
      exact List.length_pos.mp hlen
    · exact absurd h (by simp)
  | other => simp [convertMessage] at h

/-- Helper: the translated contents are the in-order `filterMap` of
per-message conversion. -/
theorem contents_eq_filterMap (o : FetchOracle) (msgs : List OpenAIMessage) :
    (convertOpenAIMessagesToGeminiContents o msgs).contents =
      msgs.filterMap (fun m => (convertMessage o m).1) := by
  unfold convertOpenAIMessagesToGeminiContents
  induction msgs with
  | nil => rfl
  | cons m rest ih =>
    cases hc : (convertMessage o m).1 <;>
      simp_all [List.filterMap_cons, hc]

/-- Helper: a message whose conversion is `(null, false)` contributes nothing
to the batch: dropping it leaves the conversion result unchanged. -/
theorem convert_append_middle_none (o : FetchOracle) (pre post : List OpenAIMessage)
    (m : OpenAIMessage) (hm : convertMessage o m = (none, false)) :
    convertOpenAIMessagesToGeminiContents o (pre ++ m :: post) =
      convertOpenAIMessagesToGeminiContents o (pre ++ post) := by
  unfold convertOpenAIMessagesToGeminiContents
  simp [List.map_append, List.filterMap_append, List.any_append, hm]

/-- Helper: a url that starts with `/?key=` cannot also start with
`/v1/chat/completions` (the second characters differ). -/
theorem legacyPrefix_not_openai (s : String)
    (h : jsStartsWith s "/?key=" = true) :
    jsStartsWith s "/v1/chat/completions" = false := by
  unfold jsStartsWith at h ⊢
  have e1 : "/?key=".data = '/' :: '?' :: "key=".data := rfl
  have e2 : "/v1/chat/completions".data = '/' :: 'v' :: "1/chat/completions".data := rfl
  rw [e1] at h
  rw [e2]
  cases hs : s.data with
  | nil => simp [isPrefixCharList]
  | cons a t =>
    cases t with
    | nil => simp [isPrefixCharList]
    | cons b t2 =>
      rw [hs] at h
      simp only [isPrefixCharList, Bool.and_eq_true, beq_iff_eq] at h
      obtain ⟨ha, hb, -⟩ := h
      subst ha
      subst hb
      simp only [isPrefixCharList]
      rw [show (('v' : Char) == '?') = false from rfl]
      simp

/-- C10: the two credential extractors treat an empty key asymmetrically: an
`Authorization` header that is exactly `Bearer ` succeeds and returns the
empty string as the API key, while the legacy URL `/?key=` with an empty
parameter value fails with `add param key to url!` — an empty
query-parameter value counts as absent, but an empty bearer token does
not. -/
theorem c10_empty_key_asymmetry :
    keyFromHeader (some "Bearer ") = Except.ok "" ∧
      keyFromURl "/?key=" = Except.error "add param key to url!" :=
  ⟨rfl, rfl⟩

/-- C9: a message whose string content starts with `#image#split#` but does
not split into exactly three segments on `#split#` is not treated as an
embedded-image instruction: it falls through to plain-string handling and
emits a single text part holding the full raw content string, delimiters
included. -/
theorem c9_malformed_split_falls_through (o : FetchOracle) (m : OpenAIMessage)
    (c : String) (hc : m.content = MessageContent.str c)
    (hpre : jsStartsWith c "#image#split#" = true)
    (hlen : (jsSplit c "#split#").length ≠ 3) :
    convertMessage o m = (some ⟨mapRole m.role, [GeminiPart.text c]⟩, false) := by
  obtain ⟨role, content⟩ := m
  cases hc
  simp [convertMessage, hpre, hlen]

/-- Witness for C9 at a concrete input: a content string with only two
`#split#` segments is passed through as one text part. -/
theorem c9_witness :
    convertMessage (fun _ => FetchResult.failure "down")
        ⟨"user", MessageContent.str "#image#split#leftover"⟩ =
      (some ⟨GRole.user, [GeminiPart.text "#image#split#leftover"]⟩, false) :=
  c9_malformed_split_falls_through (fun _ => FetchResult.failure "down")
    ⟨"user", MessageContent.str "#image#split#leftover"⟩ "#image#split#leftover"
    rfl (by decide) (by decide)

/-- C7: translation is the order-preserving image, under per-message
conversion, of exactly those input messages that produce at least one part:
the output contents are the in-order `filterMap` of per-message conversion,
and every message surviving into the output carries a non-empty part list. -/
theorem c7_order_preservation (o : FetchOracle) (msgs : List OpenAIMessage) :
    (convertOpenAIMessagesToGeminiContents o msgs).contents =
      msgs.filterMap (fun m => (convertMessage o m).1) ∧
    ∀ m c, (convertMessage o m).1 = some c → c.parts ≠ [] :=
  ⟨contents_eq_filterMap o msgs, fun m c h => convertMessage_parts_nonempty o m c h⟩

/-- Witness for C7 at a concrete mixed batch (text, empty array, text): the
two surviving messages appear in their original order. -/
theorem c7_witness :
    (convertOpenAIMessagesToGeminiContents (fun _ => FetchResult.failure "down")
        [⟨"user", MessageContent.str "a"⟩, ⟨"user", MessageContent.arr []⟩,
         ⟨"assistant", MessageContent.str "b"⟩]).contents =
      [⟨GRole.user, [GeminiPart.text "a"]⟩, ⟨GRole.model, [GeminiPart.text "b"]⟩] :=
  ((c7_order_preservation (fun _ => FetchResult.failure "down")
      [⟨"user", MessageContent.str "a"⟩, ⟨"user", MessageContent.arr []⟩,
       ⟨"assistant", MessageContent.str "b"⟩]).1).trans rfl

/-- C6: an HTTP failure while fetching one message's image — a rejected fetch
or a non-2xx response — drops only that message: translating the batch gives
exactly the translation of the batch without it, so the translation as a
whole never fails because of an individual image-fetch error. -/
theorem c6_fetch_failure_isolated (o : FetchOracle) (pre post : List OpenAIMessage)
    (m : OpenAIMessage) (c h0 src txt : String)
    (hc : m.content = MessageContent.str c)
    (hpre : jsStartsWith c "#image#split#" = true)
    (hsplit : jsSplit c "#split#" = [h0, src, txt])
    (hdata : jsStartsWith src "data:image/" = false)
    (hfail : (∃ e, o src = FetchResult.failure e) ∨
      ∃ r, o src = FetchResult.success r ∧ responseOk r = false) :
    convertOpenAIMessagesToGeminiContents o (pre ++ m :: post) =
      convertOpenAIMessagesToGeminiContents o (pre ++ post) := by
  have hm : convertMessage o m = (none, false) := by
    obtain ⟨role, content⟩ := m
    cases hc
    rcases hfail with ⟨e, he⟩ | ⟨r, hr, hok⟩
    · simp [convertMessage, hpre, hsplit, imageInstructionResult, hdata, he]
    · simp [convertMessage, hpre, hsplit, imageInstructionResult, hdata, hr, hok]
  exact convert_append_middle_none o pre post m hm

/-- Witness for C6 at a concrete input: a 404 on the image URL drops only the
image message, leaving the neighbouring text message. -/
theorem c6_witness :
    convertOpenAIMessagesToGeminiContents
        (fun _ => FetchResult.success ⟨404, "Not Found", none, []⟩)
        [⟨"user", MessageContent.str "hello"⟩,
         ⟨"user", MessageContent.str "#image#split#http://x/a.png#split#cap"⟩] =
      convertOpenAIMessagesToGeminiContents
        (fun _ => FetchResult.success ⟨404, "Not Found", none, []⟩)
        [⟨"user", MessageContent.str "hello"⟩] :=
  c6_fetch_failure_isolated (fun _ => FetchResult.success ⟨404, "Not Found", none, []⟩)
    [⟨"user", MessageContent.str "hello"⟩] []
    ⟨"user", MessageContent.str "#image#split#http://x/a.png#split#cap"⟩
    "#image#split#http://x/a.png#split#cap" "#image" "http://x/a.png" "cap"
    rfl (by decide) (by decide) (by decide)
    (Or.inr ⟨⟨404, "Not Found", none, []⟩, rfl, by decide⟩)

/-- C8: an image instruction whose non-data source is fetched successfully
emits exactly two parts in order — the text segment, then the inline data
whose mime type is the response's `content-type` header (defaulting to
`application/octet-stream` when absent) and whose data is the base64
encoding of the response body bytes — and the batch-wide image-processed
flag becomes true for any batch containing the message. -/
theorem c8_url_fetch_success (o : FetchOracle) (m : OpenAIMessage)
    (c h0 src txt : String) (r : FetchResponse)
    (hc : m.content = MessageContent.str c)
    (hpre : jsStartsWith c "#image#split#" = true)
    (hsplit : jsSplit c "#split#" = [h0, src, txt])
    (hdata : jsStartsWith src "data:image/" = false)
    (hfetch : o src = FetchResult.success r)
    (hok : responseOk r = true) :
    convertMessage o m =
      (some ⟨mapRole m.role, [GeminiPart.text txt,
        GeminiPart.inlineData (r.contentType.getD "application/octet-stream")
          (base64String r.body)]⟩, true) ∧
    ∀ pre post : List OpenAIMessage,
      (convertOpenAIMessagesToGeminiContents o (pre ++ m :: post)).imageProcessed = true := by
  obtain ⟨role, content⟩ := m
  cases hc
  have h1 : convertMessage o ⟨role, MessageContent.str c⟩ =
      (some ⟨mapRole role, [GeminiPart.text txt,
        GeminiPart.inlineData (r.contentType.getD "application/octet-stream")
          (base64String r.body)]⟩, true) := by
    simp [convertMessage, hpre, hsplit, imageInstructionResult, hdata, hfetch, hok]
  refine ⟨h1, ?_⟩
  intro pre post
  unfold convertOpenAIMessagesToGeminiContents
  simp [List.any_append, h1]

/-- Witness for C8 at a concrete input: fetching `http://x/i` returns a 200
response with content-type `image/png` and body bytes 1, 2, 3, whose base64
encoding is `AQID`. -/
theorem c8_witness :
    convertMessage (fun _ => FetchResult.success ⟨200, "OK", some "image/png", [1, 2, 3]⟩)
        ⟨"user", MessageContent.str "#image#split#http://x/i#split#cap"⟩ =
      (some ⟨GRole.user, [GeminiPart.text "cap",
        GeminiPart.inlineData "image/png" "AQID"]⟩, true) :=
  (c8_url_fetch_success (fun _ => FetchResult.success ⟨200, "OK", some "image/png", [1, 2, 3]⟩)
    ⟨"user", MessageContent.str "#image#split#http://x/i#split#cap"⟩
    "#image#split#http://x/i#split#cap" "#image" "http://x/i" "cap"
    ⟨200, "OK", some "image/png", [1, 2, 3]⟩
    rfl (by decide) (by decide) (by decide) rfl (by decide)).1

/-- C1 (amended): for an image instruction whose source begins with
`data:image/`, the translator parses the source locally as a data URI
`data:<mimeType>;base64,<data>` — the result does not depend on the fetch
oracle, so no HTTP GET is issued — and a well-formed data URI yields the text
part followed by the inline-data part carrying that mime type and payload;
but a malformed data URI makes the per-message conversion return null, so the
message is dropped (the thrown `Invalid base64 image format` error is caught
inside the per-message handler) and the request does not fail with a
BadRequest. -/
theorem c1_data_uri_local_parse (o o' : FetchOracle) (m : OpenAIMessage)
    (c h0 src txt : String)
    (hc : m.content = MessageContent.str c)
    (hpre : jsStartsWith c "#image#split#" = true)
    (hsplit : jsSplit c "#split#" = [h0, src, txt])
    (hdata : jsStartsWith src "data:image/" = true) :
    convertMessage o m = convertMessage o' m ∧
    (∀ mime dat, dataUriMatch src = some (mime, dat) →
      convertMessage o m = (some ⟨mapRole m.role,
        [GeminiPart.text txt, GeminiPart.inlineData mime dat]⟩, true)) ∧
    (dataUriMatch src = none → convertMessage o m = (none, false)) := by
  obtain ⟨role, content⟩ := m
  cases hc
  refine ⟨?_, ?_, ?_⟩
  · simp [convertMessage, hpre, hsplit, imageInstructionResult, hdata]
  · intro mime dat hmatch
    simp [convertMessage, hpre, hsplit, imageInstructionResult, hdata, hmatch]
  · intro hmatch
    simp [convertMessage, hpre, hsplit, imageInstructionResult, hdata, hmatch]

/-- Counterexample for C1 as stated: the claim says a malformed data URI makes
the request fail with a BadRequest whose message contains `Invalid base64
image format`; on the code, the message is dropped instead and the request is
forwarded normally — here the per-message conversion of the malformed
`data:image/png` instruction is null, and the handler outcome for a request
whose only message carries it is a forward with empty contents, not an error
response. -/
theorem c1_counterexample :
    convertMessage (fun _ => FetchResult.failure "down")
        ⟨"user", MessageContent.str "#image#split#data:image/png#split#hi"⟩ =
      (none, false) ∧
    handleRequest (fun _ => FetchResult.failure "down")
        { method := "POST", url := "/v1/chat/completions",
          authorization := some "Bearer k", body := "",
          parsedBody := some
            { model := some (Json.str "m"),
              messages := some
                [⟨"user", MessageContent.str "#image#split#data:image/png#split#hi"⟩],
              gemini_generation_config := none } } =
      Outcome.forwardOpenAI "k" (Json.str "m") ⟨[], none⟩ :=
  ⟨rfl, rfl⟩

/-- Witness for C1 at the concrete example of the claim: the content
`#image#split#data:image/png;base64,AAAA#split#caption` yields the parts
`text "caption"` then `inlineData "image/png" "AAAA"` with the message flag
set, without consulting the fetch oracle. -/
theorem c1_witness :
    convertMessage (fun _ => FetchResult.failure "down")
        ⟨"user", MessageContent.str "#image#split#data:image/png;base64,AAAA#split#caption"⟩ =
      (some ⟨GRole.user, [GeminiPart.text "caption",
        GeminiPart.inlineData "image/png" "AAAA"]⟩, true) :=
  (c1_data_uri_local_parse (fun _ => FetchResult.failure "down")
    (fun _ => FetchResult.failure "other")
    ⟨"user", MessageContent.str "#image#split#data:image/png;base64,AAAA#split#caption"⟩
    "#image#split#data:image/png;base64,AAAA#split#caption"
    "#image" "data:image/png;base64,AAAA" "caption"
    rfl (by decide) (by decide) (by decide)).2.1
    "image/png" "AAAA" (by decide)

/-- C2 (amended): every translated BackendContent has at least one part, and
any message producing zero parts is dropped silently; but a message whose
content is the empty string produces one `text ""` part and is kept, while a
message whose content is an empty item array produces zero parts and is
dropped — so a 2-message batch yields one element when the empty message is
an empty array, not when it is the empty string. -/
theorem c2_empty_message_handling (o : FetchOracle) (msgs : List OpenAIMessage)
    (r : String) :
    (∀ c ∈ (convertOpenAIMessagesToGeminiContents o msgs).contents, c.parts ≠ []) ∧
    convertMessage o ⟨r, MessageContent.str ""⟩ =
      (some ⟨mapRole r, [GeminiPart.text ""]⟩, false) ∧
    convertMessage o ⟨r, MessageContent.arr []⟩ = (none, false) ∧
    (convertOpenAIMessagesToGeminiContents o
        [⟨r, MessageContent.str "hi"⟩, ⟨r, MessageContent.arr []⟩]).contents.length = 1 := by
  refine ⟨?_, ?_, rfl, ?_⟩
  · intro c hc
    rw [contents_eq_filterMap] at hc
    obtain ⟨m, -, hm⟩ := List.mem_filterMap.mp hc
    exact convertMessage_parts_nonempty o m c hm
  · have hp : jsStartsWith "" "#image#split#" = false := rfl
    simp [convertMessage, hp]
  · have hp : jsStartsWith "hi" "#image#split#" = false := rfl
    simp [convertOpenAIMessagesToGeminiContents, convertMessage, hp]

/-- Counterexample for C2 as stated: the claim says a message whose content is
the empty string produces zero parts and is dropped, a 2-message batch with
one empty message translating to 1 element; on the code the empty-string
message is kept with an empty text part, so the batch translates to 2
elements (and the second content's only part carries empty text, so the
stated `non-empty part` invariant fails for it too). -/
theorem c2_counterexample :
    (convertOpenAIMessagesToGeminiContents (fun _ => FetchResult.failure "down")
        [⟨"user", MessageContent.str "hi"⟩, ⟨"user", MessageContent.str ""⟩]).contents =
      [⟨GRole.user, [GeminiPart.text "hi"]⟩, ⟨GRole.user, [GeminiPart.text ""]⟩] ∧
    (convertOpenAIMessagesToGeminiContents (fun _ => FetchResult.failure "down")
        [⟨"user", MessageContent.str "hi"⟩, ⟨"user", MessageContent.str ""⟩]).contents.length ≠ 1 :=
  ⟨rfl, by decide⟩

/-- Witness for C2 at concrete inputs: the empty string is kept as one empty
text part, the empty array is dropped, and a 2-message batch whose second
message is an empty array yields one element. -/
theorem c2_witness :
    convertMessage (fun _ => FetchResult.failure "down")
        ⟨"user", MessageContent.str ""⟩ =
      (some ⟨GRole.user, [GeminiPart.text ""]⟩, false) ∧
    convertMessage (fun _ => FetchResult.failure "down")
        ⟨"user", MessageContent.arr []⟩ = (none, false) ∧
    (convertOpenAIMessagesToGeminiContents (fun _ => FetchResult.failure "down")
        [⟨"user", MessageContent.str "hi"⟩, ⟨"user", MessageContent.arr []⟩]).contents.length = 1 := by
  obtain ⟨-, h2, h3, h4⟩ :=
    c2_empty_message_handling (fun _ => FetchResult.failure "down") [] "user"
  exact ⟨h2, h3, h4⟩

/-- C3 (amended): on the legacy path, a POST request whose URL lacks a
non-empty `key` query parameter yields an error whose JSON body carries code
500 and the message `💣 add param key to url!` (containing `add param key to
url`), while the HTTP status line was already written as 200 before key
extraction — not a 400-class response. -/
theorem c3_legacy_missing_key (o : FetchOracle) (req : Request)
    (hm : req.method = "POST")
    (hleg : effectiveUrl req = "/" ∨ jsStartsWith (effectiveUrl req) "/?key=" = true)
    (hkey : searchParamsGet (queryOf (effectiveUrl req)) "key" = none ∨
      searchParamsGet (queryOf (effectiveUrl req)) "key" = some "") :
    handleRequest o req = Outcome.errResponse 200 500 "💣 add param key to url!" ∧
    containsSubstr "💣 add param key to url!" "add param key to url" = true := by
  have hopen : jsStartsWith (effectiveUrl req) "/v1/chat/completions" = false := by
    rcases hleg with h | h
    · rw [h]; decide
    · exact legacyPrefix_not_openai _ h
  have hlegT : (jsStartsWith (effectiveUrl req) "/?key=" || (effectiveUrl req == "/")) = true := by
    rcases hleg with h | h
    · rw [h]; decide
    · rw [h, Bool.true_or]
  have hkerr : keyFromURl (effectiveUrl req) = Except.error "add param key to url!" := by
    unfold keyFromURl
    rcases hkey with h | h <;> (rw [h]; try rfl)
  refine ⟨?_, rfl⟩
  unfold handleRequest
  rw [hm]
  have e1 : (("POST" : String) == "OPTIONS") = false := rfl
  have e2 : (("POST" : String) != "POST") = false := rfl
  have e3 : catchError (some 200) "add param key to url!" =
      Outcome.errResponse 200 500 "💣 add param key to url!" := rfl
  simp [e1, e2, hopen, hlegT, hkerr, e3]

/-- Counterexample for C3 as stated: the claim says a legacy request without a
`key` parameter gets a 400-class BadRequest; on the code, a POST to `/` gets
HTTP status 200 (the head was already written) with error body code 500. -/
theorem c3_counterexample :
    handleRequest (fun _ => FetchResult.failure "down")
        { method := "POST", url := "/", authorization := none, body := "{}",
          parsedBody := none } =
      Outcome.errResponse 200 500 "💣 add param key to url!" :=
  rfl

/-- Witness for C3 at a concrete input: a POST to `/?key=` (empty parameter
value) gets the 200/500 error response with the `add param key to url`
message. -/
theorem c3_witness :
    handleRequest (fun _ => FetchResult.failure "down")
        { method := "POST", url := "/?key=", authorization := none, body := "",
          parsedBody := none } =
      Outcome.errResponse 200 500 "💣 add param key to url!" :=
  (c3_legacy_missing_key (fun _ => FetchResult.failure "down")
    { method := "POST", url := "/?key=", authorization := none, body := "",
      parsedBody := none }
    rfl (Or.inr (by decide)) (Or.inr (by decide))).1

/-- C4 (amended): on the OpenAI-compatible path, a missing or empty
Authorization header, or one lacking the `Bearer ` prefix, makes the request
fail with HTTP status 500 and body code 500 — the message contains `Missing
or invalid Authorization header` but matches none of the catch block's
substring classifiers, so the 500 default applies rather than a 400-class
code; when the prefix is present the extracted API key is exactly the
substring of the header after `Bearer `. -/
theorem c4_auth_header (o : FetchOracle) (req : Request)
    (hm : req.method = "POST")
    (hu : jsStartsWith (effectiveUrl req) "/v1/chat/completions" = true)
    (hbad : req.authorization = none ∨
      ∃ a, req.authorization = some a ∧ (a = "" ∨ jsStartsWith a "Bearer " = false)) :
    (handleRequest o req = Outcome.errResponse 500 500 ("💣 " ++ authErrorMsg) ∧
      containsSubstr ("💣 " ++ authErrorMsg) "Missing or invalid Authorization header" = true) ∧
    ∀ a, jsStartsWith a "Bearer " = true →
      keyFromHeader (some a) = Except.ok (jsSubstring a 7) := by
  have hkerr : keyFromHeader req.authorization = Except.error authErrorMsg := by
    rcases hbad with h | ⟨a, ha, hcase⟩
    · rw [h]; rfl
    · rw [ha]
      unfold keyFromHeader
      rcases hcase with rfl | hsw
      · rfl
      · cases hemp : (a == "")
        · simp [hemp, hsw]
        · simp [hemp]
  refine ⟨⟨?_, rfl⟩, ?_⟩
  · unfold handleRequest
    rw [hm]
    have e1 : (("POST" : String) == "OPTIONS") = false := rfl
    have e2 : (("POST" : String) != "POST") = false := rfl
    have e3 : catchError none authErrorMsg =
        Outcome.errResponse 500 500 ("💣 " ++ authErrorMsg) := rfl
    simp [e1, e2, hu, hkerr, e3]
  · intro a hsw
    unfold keyFromHeader
    cases hemp : (a == "")
    · simp [hemp, hsw]
    · have : a = "" := eq_of_beq hemp
      subst this
      exact absurd hsw (by decide)

/-- Counterexample for C4 as stated: the claim says a missing Authorization
header yields a 400-class BadRequest; on the code, a POST to the OpenAI path
without the header gets HTTP status 500 with body code 500. -/
theorem c4_counterexample :
    handleRequest (fun _ => FetchResult.failure "down")
        { method := "POST", url := "/v1/chat/completions", authorization := none,
          body := "", parsedBody := none } =
      Outcome.errResponse 500 500
        "💣 💣 Missing or invalid Authorization header! Format: \"Bearer YOUR_API_KEY\"" :=
  rfl

/-- Witness for C4 at concrete inputs: a wrong-prefix header gets the 500/500
error response, and the header `Bearer abc` extracts exactly `abc`. -/
theorem c4_witness :
    handleRequest (fun _ => FetchResult.failure "down")
        { method := "POST", url := "/v1/chat/completions",
          authorization := some "Basic abc", body := "", parsedBody := none } =
      Outcome.errResponse 500 500 ("💣 " ++ authErrorMsg) ∧
    keyFromHeader (some "Bearer abc") = Except.ok "abc" :=
  ⟨((c4_auth_header (fun _ => FetchResult.failure "down")
      { method := "POST", url := "/v1/chat/completions",
        authorization := some "Basic abc", body := "", parsedBody := none }
      rfl (by decide) (Or.inr ⟨"Basic abc", rfl, Or.inr (by decide)⟩)).1).1,
   (c4_auth_header (fun _ => FetchResult.failure "down")
      { method := "POST", url := "/v1/chat/completions",
        authorization := some "Basic abc", body := "", parsedBody := none }
      rfl (by decide) (Or.inr ⟨"Basic abc", rfl, Or.inr (by decide)⟩)).2
     "Bearer abc" (by decide)⟩

/-- C5 (amended): on a successful OpenAI-path request the forwarded body is
`buildGeminiRequestBody` of the conversion result and the caller's
`gemini_generation_config` field; a caller-supplied truthy
`gemini_generation_config` appears verbatim as the forwarded
`generationConfig`, overriding the default, and when the image-processed flag
is true and the field is absent or falsy the forwarded `generationConfig` is
the default requesting both TEXT and IMAGE modalities — a falsy caller value
is ignored rather than forwarded. -/
theorem c5_generation_config (o : FetchOracle) (req : Request) (k : String)
    (bj : RequestBodyJSON) (msgs : List OpenAIMessage)
    (hm : req.method = "POST")
    (hu : jsStartsWith (effectiveUrl req) "/v1/chat/completions" = true)
    (hk : keyFromHeader req.authorization = Except.ok k)
    (hb : req.parsedBody = some bj)
    (hmodel : jsTruthyOpt bj.model = true)
    (hmsgs : bj.messages = some msgs) :
    handleRequest o req = Outcome.forwardOpenAI k (bj.model.getD Json.null)
      (buildGeminiRequestBody (convertOpenAIMessagesToGeminiContents o msgs)
        bj.gemini_generation_config) ∧
    (∀ cfg, bj.gemini_generation_config = some cfg → jsTruthy cfg = true →
      (buildGeminiRequestBody (convertOpenAIMessagesToGeminiContents o msgs)
        bj.gemini_generation_config).generationConfig = some cfg) ∧
    ((convertOpenAIMessagesToGeminiContents o msgs).imageProcessed = true →
      (bj.gemini_generation_config = none ∨
        ∃ cfg, bj.gemini_generation_config = some cfg ∧ jsTruthy cfg = false) →
      (buildGeminiRequestBody (convertOpenAIMessagesToGeminiContents o msgs)
        bj.gemini_generation_config).generationConfig = some defaultGenerationConfig) := by
  refine ⟨?_, ?_, ?_⟩
  · unfold handleRequest
    rw [hm]
    have e1 : (("POST" : String) == "OPTIONS") = false := rfl
    have e2 : (("POST" : String) != "POST") = false := rfl
    simp [e1, e2, hu, hk, hb, hmodel, hmsgs]
  · intro cfg hcfg htr
    unfold buildGeminiRequestBody
    rw [hcfg]
    simp [htr]
  · intro himg hfalsy
    unfold buildGeminiRequestBody
    rcases hfalsy with h | ⟨cfg, hcfg, hfl⟩
    · rw [h]
      simp [himg]
    · rw [hcfg]
      simp [hfl, himg]

/-- Counterexample for C5 as stated: the claim says a `gemini_generation_config`
field always appears verbatim as the forwarded `generationConfig`, overriding
the auto-derived default in all cases; on the code the override is guarded by
JavaScript truthiness, so with the falsy value `false` alongside an image
message the forwarded config is the auto-derived default, not the caller's
value. -/
theorem c5_counterexample :
    handleRequest (fun _ => FetchResult.failure "down")
        { method := "POST", url := "/v1/chat/completions",
          authorization := some "Bearer k", body := "",
          parsedBody := some
            { model := some (Json.str "m"),
              messages := some
                [⟨"user", MessageContent.str "#image#split#data:image/png;base64,AAAA#split#cap"⟩],
              gemini_generation_config := some (Json.bool false) } } =
      Outcome.forwardOpenAI "k" (Json.str "m")
        ⟨[⟨GRole.user, [GeminiPart.text "cap", GeminiPart.inlineData "image/png" "AAAA"]⟩],
          some defaultGenerationConfig⟩ ∧
    some defaultGenerationConfig ≠ some (Json.bool false) :=
  ⟨rfl, fun h => Json.noConfusion (Option.some.inj h)⟩

/-- Witness for C5 at a concrete input: a truthy caller-supplied
`gemini_generation_config` (an empty object) is forwarded verbatim. -/
theorem c5_witness :
    handleRequest (fun _ => FetchResult.failure "down")
        { method := "POST", url := "/v1/chat/completions",
          authorization := some "Bearer k", body := "",
          parsedBody := some
            { model := some (Json.str "m"), messages := some [],
              gemini_generation_config := some (Json.obj []) } } =
      Outcome.forwardOpenAI "k" (Json.str "m") ⟨[], some (Json.obj [])⟩ :=
  (c5_generation_config (fun _ => FetchResult.failure "down")
    { method := "POST", url := "/v1/chat/completions",
      authorization := some "Bearer k", body := "",
      parsedBody := some
        { model := some (Json.str "m"), messages := some [],
          gemini_generation_config := some (Json.obj []) } }
    "k"
    { model := some (Json.str "m"), messages := some [],
      gemini_generation_config := some (Json.obj []) }
    [] rfl (by decide) rfl rfl rfl rfl).1
